import Mathlib

/-!
Shallow embedding of the connection/handshake engine of the Bolt stub
server (`boltstub/channel.py`, class `Channel`), together with the
collaborator data it consumes.  Bytes are modelled as natural numbers,
byte strings as `List Nat`, Python tuples as products, Python `None`
as `Option.none`, and raised exceptions as an `Except` error outcome.
All mutations of the channel object are made explicit by threading a
state record.
-/

namespace Boltstub

/-- A protocol version as the source handles it: a `(major, minor)` pair. -/
abbrev Version := Nat × Nat

/-- A client version offer `(major, minor, range)` from the legacy
16-byte handshake. -/
abbrev VersionOffer := Nat × Nat × Nat

/-- A decoded protocol message (`translate_structure` result): a name and
opaque field data.  Only the name is inspected by the channel
(`try_auto_consume`). -/
structure Msg where
  name : String
  fields : List Nat
  deriving DecidableEq, Repr

/-- The distinct exception classes raised by `channel.py`:
`ServerExit` (fatal transport fault), `ScriptFailure` (script/protocol
fault), `NotImplementedError` (unimplemented-feature fault), `OSError`
(transport I/O error), `AssertionError` (the `assert` in
`_version_handshake_manifest_v1`), and the `TypeError` obtained by
calling `None` as a function (when `log_cb` was left `None`). -/
inductive Fault where
  | serverExit (msg : String)
  | scriptFailure (msg : String)
  | notImplementedError (msg : String)
  | osError
  | assertionError
  | noneNotCallable
  deriving DecidableEq, Repr

/-- Modelled from the spec: `util.hex_repr` is not part of the sources in
scope (only `channel.py` is); the spec describes it as rendering received
bytes "in hex" for diagnostics.  We render each byte as two uppercase hex
digits, space-separated. -/
def hexDigit (n : Nat) : Char :=
  if n < 10 then Char.ofNat (48 + n) else Char.ofNat (55 + n)

/-- Modelled from the spec: two-digit uppercase hex form of one byte. -/
def hexByte (b : Nat) : String :=
  String.mk [hexDigit (b / 16 % 16), hexDigit (b % 16)]

/-- Modelled from the spec: hex dump of a byte string (`hex_repr`). -/
def hex_repr (bs : List Nat) : String :=
  String.intercalate " " (bs.map hexByte)

/-- Rendering of a `(major, minor)` version pair the way a Python f-string
renders the tuple, used in the failed-handshake diagnostic. -/
def versionRepr (v : Version) : String :=
  "(" ++ toString v.1 ++ ", " ++ toString v.2 ++ ")"

/-- The per-version protocol descriptor data consumed by `Channel`
(`self.bolt_protocol`): canonical version, alias versions, feature bytes,
capability flags, and the collaborator functions the channel invokes.
The descriptor object itself is built outside the sources in scope; its
fields are exactly the attributes `channel.py` reads. -/
structure BoltProtocol where
  protocol_version : Version
  equivalent_versions : List Version
  features : List Nat
  handshake_minor_support : Bool
  handshake_range_support : Bool
  max_handshake_manifest_version : Nat
  translate_server_line : String → Msg
  get_auto_response : Msg → Msg

/-- The alias-matching loop of `Channel._check_requested_version`
(`for supported_equivalent in self.bolt_protocol.equivalent_versions`):
returns the first alias whose major matches and whose minor lies in the
inclusive interval `[minor - range, minor]`. -/
def equivalentLoop (major : Nat) (minor range_ : Int) :
    List Version → Option Version
  | [] => none
  | se :: rest =>
      if se.1 = major ∧ minor ≥ (se.2 : Int) ∧ (se.2 : Int) ≥ minor - range_
      then some se
      else equivalentLoop major minor range_ rest

/-- Embeds `Channel._check_requested_version`: evaluates the acceptance test for
one offer.  `handshake_manifest` is the channel's pinned manifest version
(`None` when unset).  Returns `some accepted` / `none`, or raises
`NotImplementedError` for range negotiation on a manifest offer. -/
def check_requested_version (proto : BoltProtocol)
    (handshake_manifest : Option Nat) (requested_version : VersionOffer) :
    Except Fault (Option Version) :=
  let supported_version := proto.protocol_version
  let major := requested_version.1
  let minor := requested_version.2.1
  let range_ := requested_version.2.2
  if major = 0xff then
    if range_ ≠ 0 then
      .error (.notImplementedError
        "Handshake range negotiation is not yet implemented")
    else
      match handshake_manifest with
      | none =>
          if proto.max_handshake_manifest_version = 0 then
            .ok none
          else if minor ≤ proto.max_handshake_manifest_version then
            .ok (some (major, minor))
          else
            .ok none
      | some pinned =>
          if pinned = minor then .ok (some (major, minor)) else .ok none
  else if handshake_manifest ≠ some 0 ∧ handshake_manifest ≠ none then
    .ok none
  else
    let range_ : Int := if proto.handshake_range_support then range_ else 0
    let minor : Int := if proto.handshake_minor_support then minor else 0
    if supported_version.1 = major ∧ minor ≥ (supported_version.2 : Int)
        ∧ (supported_version.2 : Int) ≥ minor - range_ then
      .ok (some supported_version)
    else
      .ok (equivalentLoop major minor range_ proto.equivalent_versions)

/-- The offer loop of `Channel._version_handshake_init`: evaluate each
offer in client order with `_check_requested_version`; the first accepted
offer wins; a raised exception propagates. -/
def offerLoop (proto : BoltProtocol) (handshake_manifest : Option Nat) :
    List VersionOffer → Except Fault (Option Version)
  | [] => .ok none
  | v :: rest =>
      match check_requested_version proto handshake_manifest v with
      | .error e => .error e
      | .ok (some a) => .ok (some a)
      | .ok none => offerLoop proto handshake_manifest rest

/-- Modelled from the spec: `BoltProtocol.decode_versions` is not part of
the sources in scope.  The spec says the 16-byte legacy offer packs up to
four `(major, minor, range)` triples, each 4-byte group laid out as
`00 <range> <minor> <major>` (matching the documented version byte order
`00 00 <minor> <major>`). -/
def decode_versions : List Nat → List VersionOffer
  | _ :: b1 :: b2 :: b3 :: rest => (b3, b2, b1) :: decode_versions rest
  | _ => []

/-- One recorded invocation of the logging callback: the format string and
the arguments passed at a `self.log(...)` / `self._log(...)` call site. -/
inductive LogArg where
  | nat (n : Nat)
  | str (s : String)
  | msg (m : Msg)
  deriving DecidableEq, Repr

/-- A recorded log-callback invocation. -/
structure LogCall where
  fmt : String
  args : List LogArg
  deriving DecidableEq, Repr

/-- The continuation state `_handshake_handler_step` (with the
accompanying `_handshake_handler_step_data`): which resumable manifest-v1
step runs next, and the partial data accumulated so far. -/
inductive HandshakeStep where
  | v1_step1
  | v1_step2 (client_pick : List Nat)
  | v1_step3 (client_pick : List Nat) (feature_pick : List Nat)

/-- The state of one `Channel` object together with its observable
environment: configuration fields from `__init__`, the continuation and
buffer slots, and the transport modelled explicitly (`wireIn` — bytes the
client will send; `wireOut` — bytes written and flushed by the server;
`write_ok` — whether transport writes currently succeed, to model client
disconnection; `pendingMsgs` — the decode results of the framed messages
the client will send; `reads` — how many message-level transport reads
`stream.read_message` has performed; `logTrace` — every invocation of the
log callback; `sentMsgs` — messages written via `stream.write_message`). -/
structure Channel where
  bolt_protocol : BoltProtocol
  handshake_manifest : Option Nat
  handshake_data : Option (List Nat)
  handshake_response_data : Option (List Nat)
  handshake_delay : Option Nat
  log : Option Unit
  handler_step : Option HandshakeStep
  buffered_msg : Option Msg
  wireIn : List Nat
  wireOut : List Nat
  write_ok : Bool
  pendingMsgs : List Msg
  reads : Nat
  logTrace : List LogCall
  sentMsgs : List Msg

/-- Append one log-callback invocation to the trace. -/
def recordLog (c : Channel) (fmt : String) (args : List LogArg) : Channel :=
  { c with logTrace := c.logTrace ++ [⟨fmt, args⟩] }

/-- Embeds `Channel._log`: invoke the log callback only if one was supplied. -/
def log_guarded (c : Channel) (fmt : String) (args : List LogArg) : Channel :=
  if c.log.isSome then recordLog c fmt args else c

/-- A direct `self.log(...)` call: invoking `None` as a function raises
`TypeError` when no callback was supplied. -/
def logDirect (c : Channel) (fmt : String) (args : List LogArg) :
    Channel × Except Fault Unit :=
  match c.log with
  | none => (c, .error .noneNotCallable)
  | some _ => (recordLog c fmt args, .ok ())

/-- Embeds `wire.read(n)`: exact-length blocking read; an exhausted transport
surfaces as an I/O fault. -/
def wireRead (c : Channel) (n : Nat) : Channel × Except Fault (List Nat) :=
  if n ≤ c.wireIn.length then
    ({ c with wireIn := c.wireIn.drop n }, .ok (c.wireIn.take n))
  else
    (c, .error .osError)

/-- Embeds `wire.write(b)` followed by `wire.send()`: append to the flushed
output, or raise `OSError` when the transport is down. -/
def wireWrite (c : Channel) (bs : List Nat) : Channel × Except Fault Unit :=
  if c.write_ok then
    ({ c with wireOut := c.wireOut ++ bs }, .ok ())
  else
    (c, .error .osError)

/-- Embeds `stream.write_message` followed by `stream.drain`. -/
def streamWrite (c : Channel) (m : Msg) : Channel :=
  { c with sentMsgs := c.sentMsgs ++ [m] }

/-- Embeds `Channel.preamble`: read 4 bytes; fatal `ServerExit` unless they are
the magic `60 60 B0 17`. -/
def preamble (c : Channel) : Channel × Except Fault Unit :=
  match wireRead c 4 with
  | (c, .error e) => (c, .error e)
  | (c, .ok request) =>
      let c := log_guarded c "C: <MAGIC> %s" [.str (hex_repr request)]
      if request ≠ [0x60, 0x60, 0xb0, 0x17] then
        (c, .error (.serverExit
          ("Expected the magic header " ++ "6060B017" ++ ", received "
            ++ hex_repr request)))
      else
        (c, .ok ())

/-- Embeds `Channel._abort_handshake`: log, then best-effort write of the 4-byte
all-zero abort sequence, swallowing any `OSError`. -/
def abort_handshake (c : Channel) : Channel :=
  let c := log_guarded c "S: <HANDSHAKE> %s" [.str (hex_repr [0, 0, 0, 0])]
  match wireWrite c [0, 0, 0, 0] with
  | (c, .ok _) => c
  | (c, .error _) => c

/-- Embeds `Channel._version_handshake_init`: read the 16-byte offer, decode it,
run the offer loop; on no acceptance abort and raise `ScriptFailure`
naming the supported protocol version, the manifest version constraint
and the raw offered bytes in hex. -/
def version_handshake_init (c : Channel) (manifest_version : Option Nat) :
    Channel × Except Fault Version :=
  match wireRead c 16 with
  | (c, .error e) => (c, .error e)
  | (c, .ok request) =>
      let c := log_guarded c "C: <HANDSHAKE> %s" [.str (hex_repr request)]
      let requested_versions := decode_versions request
      match offerLoop c.bolt_protocol c.handshake_manifest
          requested_versions with
      | .error e => (c, .error e)
      | .ok (some accepted_offer) => (c, .ok accepted_offer)
      | .ok none =>
          let c := abort_handshake c
          let manifest_version_str :=
            match manifest_version with
            | none =>
                "<= " ++ toString c.bolt_protocol.max_handshake_manifest_version
            | some v => toString v
          (c, .error (.scriptFailure
            ("Failed handshake, stub server talks protocol "
              ++ versionRepr c.bolt_protocol.protocol_version ++ " "
              ++ "(manifest version " ++ manifest_version_str ++ ")."
              ++ "Driver sent handshake: " ++ hex_repr request)))

/-- Embeds `Channel._version_handshake_no_manifest`: send the 4-byte legacy reply
`00 00 <minor> <major>` for the accepted version and log it. -/
def version_handshake_no_manifest (c : Channel) (accepted_version : Version) :
    Channel × Except Fault Unit :=
  let response := [0, 0, accepted_version.2, accepted_version.1]
  match wireWrite c response with
  | (c, .error e) => (c, .error e)
  | (c, .ok _) =>
      (log_guarded c "S: <HANDSHAKE> %s" [.str (hex_repr response)], .ok ())

/-- The `while feature_pick[-1] & 0x80` read loop of
`Channel._handshake_v1_step3`, recursing over the remaining transport
input: as long as the last accumulated byte has the continuation bit set,
read one more byte.  Returns the bytes appended and the remaining input,
or `none` on transport exhaustion. -/
def readFeatureTail : Nat → List Nat → Option (List Nat × List Nat)
  | last, input =>
      if last &&& 0x80 = 0 then
        some ([], input)
      else
        match input with
        | [] => none
        | b :: rest =>
            match readFeatureTail b rest with
            | none => none
            | some (tail, rem) => some (b :: tail, rem)

/-- Embeds `Channel._handshake_v1_step3`: finish reading the client's
feature-byte sequence, clear the continuation state, then validate the
4-byte version pick against the offered version and the feature bytes
against the descriptor's features, raising `ScriptFailure` on mismatch —
the version check first, the feature check only if the version matched.
(Callers always supply a non-empty `feature_pick`; the `[-1]` indexing of
the source is modelled with `getLastD`.) -/
def handshake_v1_step3 (c : Channel)
    (client_pick feature_pick : List Nat) : Channel × Except Fault Unit :=
  match readFeatureTail (feature_pick.getLastD 0) c.wireIn with
  | none => (c, .error .osError)
  | some (tail, rem) =>
      let feature_pick := feature_pick ++ tail
      let c := { c with wireIn := rem, handler_step := none }
      let supported_version := c.bolt_protocol.protocol_version
      let version_offer :=
        [0, 0, supported_version.2, supported_version.1]
      let c := log_guarded c "C: <HANDSHAKE> %s %s"
        [.str (hex_repr client_pick), .str (hex_repr feature_pick)]
      if client_pick ≠ version_offer then
        (c, .error (.scriptFailure
          ("Failed handshake, client picked different version "
            ++ hex_repr client_pick ++ " than offered "
            ++ hex_repr version_offer)))
      else if feature_pick ≠ c.bolt_protocol.features then
        (c, .error (.scriptFailure
          ("Failed handshake, client picked different features ("
            ++ hex_repr feature_pick ++ ") than offered ("
            ++ hex_repr c.bolt_protocol.features ++ ")")))
      else
        (c, .ok ())

/-- Embeds `Channel._handshake_v1_step2`: read the first feature byte, persist
it in the continuation state, fall through to step 3. -/
def handshake_v1_step2 (c : Channel) (client_pick : List Nat) :
    Channel × Except Fault Unit :=
  match wireRead c 1 with
  | (c, .error e) => (c, .error e)
  | (c, .ok feature_pick) =>
      let c := { c with handler_step := some (.v1_step3 client_pick feature_pick) }
      handshake_v1_step3 c client_pick feature_pick

/-- Embeds `Channel._handshake_v1_step1`: read the client's 4-byte version pick,
persist it in the continuation state, fall through to step 2. -/
def handshake_v1_step1 (c : Channel) : Channel × Except Fault Unit :=
  match wireRead c 4 with
  | (c, .error e) => (c, .error e)
  | (c, .ok client_pick) =>
      let c := { c with handler_step := some (.v1_step2 client_pick) }
      handshake_v1_step2 c client_pick

/-- Embeds `Channel._version_handshake_manifest_v1`: assert the accepted offer is
`(0xFF, 1)`, send the extended server offer (`00 00 01 FF`, count byte
`01`, the offered version, the feature bytes) in one flush, then run the
resumable steps. -/
def version_handshake_manifest_v1 (c : Channel) (accepted_version : Version) :
    Channel × Except Fault Unit :=
  if accepted_version ≠ (0xff, 1) then
    (c, .error .assertionError)
  else
    let supported_version := c.bolt_protocol.protocol_version
    let version_offer := [0, 0, supported_version.2, supported_version.1]
    let full_offer :=
      [0, 0, 1, 0xff] ++ [1] ++ version_offer ++ c.bolt_protocol.features
    match wireWrite c full_offer with
    | (c, .error e) => (c, .error e)
    | (c, .ok _) =>
        let c := log_guarded c "S: <HANDSHAKE> 00 00 01 FF [1] %s %s"
          [.str (hex_repr version_offer),
           .str (hex_repr c.bolt_protocol.features)]
        let c := { c with handler_step := some .v1_step1 }
        handshake_v1_step1 c

/-- Embeds `Channel._delay_handshake`: log and sleep when a (non-zero) handshake
delay was configured; the sleep itself has no observable effect here. -/
def delay_handshake (c : Channel) : Channel :=
  match c.handshake_delay with
  | some d =>
      if d ≠ 0 then log_guarded c "S: <HANDSHAKE DELAY> %s" [.nat d] else c
  | none => c

/-- Embeds `Channel._version_handshake_fixed`: read and log 16 bytes unvalidated,
optionally delay, write the configured literal response, and when a
literal client follow-up is configured, read and compare it, raising
`ServerExit` on mismatch. -/
def version_handshake_fixed (c : Channel) : Channel × Except Fault Unit :=
  match wireRead c 16 with
  | (c, .error e) => (c, .error e)
  | (c, .ok request) =>
      let c := log_guarded c "C: <HANDSHAKE> %s" [.str (hex_repr request)]
      let c := delay_handshake c
      let response := c.handshake_data.getD []
      match wireWrite c response with
      | (c, .error e) => (c, .error e)
      | (c, .ok _) =>
          let c := log_guarded c "S: <HANDSHAKE> %s"
            [.str (hex_repr response)]
          match c.handshake_response_data with
          | none => (c, .ok ())
          | some expected =>
              match wireRead c expected.length with
              | (c, .error e) => (c, .error e)
              | (c, .ok client_response) =>
                  if client_response ≠ expected then
                    (c, .error (.serverExit
                      ("Expected the client handshake response "
                        ++ hex_repr expected ++ ", received "
                        ++ hex_repr client_response)))
                  else
                    (c, .ok ())

/-- Resume a persisted handshake continuation step. -/
def run_handler_step (c : Channel) : HandshakeStep → Channel × Except Fault Unit
  | .v1_step1 => handshake_v1_step1 c
  | .v1_step2 cp => handshake_v1_step2 c cp
  | .v1_step3 cp fp => handshake_v1_step3 c cp fp

/-- Python's `str` of an `Option Nat` field (`None` or the number), as the
`NotImplementedError` f-string renders `self.handshake_manifest`. -/
def optNatRepr : Option Nat → String
  | none => "None"
  | some n => toString n

/-- Embeds `Channel.version_handshake`: resume a continuation step if one is
pending; else the fixed dialect if configured; else run the dynamic
dialect and dispatch on the accepted version — the per-manifest-version
handler lookup (`getattr` by constructed name) finds a handler exactly
for manifest minor version 1, and raises `NotImplementedError` for any
other accepted manifest version. -/
def version_handshake (c : Channel) : Channel × Except Fault Unit :=
  match c.handler_step with
  | some s => run_handler_step c s
  | none =>
      match c.handshake_data with
      | some _ => version_handshake_fixed c
      | none =>
          match version_handshake_init c none with
          | (c, .error e) => (c, .error e)
          | (c, .ok accepted_version) =>
              if accepted_version.1 < 0xff then
                let c := delay_handshake c
                version_handshake_no_manifest c accepted_version
              else if accepted_version.2 = 1 then
                let c := delay_handshake c
                version_handshake_manifest_v1 c accepted_version
              else
                (c, .error (.notImplementedError
                  ("Handshake manifest " ++ optNatRepr c.handshake_manifest
                    ++ " is not implemented")))

/-- Embeds `Channel._consume`: read and decode one message from the transport
(one message-level transport read). -/
def consume_direct (c : Channel) : Channel × Except Fault Msg :=
  match c.pendingMsgs with
  | [] => (c, .error .osError)
  | m :: rest =>
      ({ c with pendingMsgs := rest, reads := c.reads + 1 }, .ok m)

/-- Embeds `Channel.consume(line_no=None)`: if a message is buffered, log it via
the direct `self.log` call (with the line number when supplied) and
return it, clearing the buffer; otherwise read one message directly from
the transport (no logging on that path). -/
def consume (c : Channel) (line_no : Option Nat) : Channel × Except Fault Msg :=
  match c.buffered_msg with
  | some msg =>
      let r :=
        match line_no with
        | some n => logDirect c "(%4i) C: %s" [.nat n, .msg msg]
        | none => logDirect c "(%4i) C: %s" [.msg msg]
      match r with
      | (c, .error e) => (c, .error e)
      | (c, .ok _) => ({ c with buffered_msg := none }, .ok msg)
  | none => consume_direct c

/-- Embeds `Channel.peek`: fill the single-slot buffer from the transport if it
is empty, and return the buffered message. -/
def peek (c : Channel) : Channel × Except Fault Msg :=
  match c.buffered_msg with
  | some m => (c, .ok m)
  | none =>
      match consume_direct c with
      | (c, .error e) => (c, .error e)
      | (c, .ok m) => ({ c with buffered_msg := some m }, .ok m)

/-- Embeds `Channel.send_raw`: log the hex form via the direct `self.log` call,
then write and flush the raw bytes. -/
def send_raw (c : Channel) (b : List Nat) : Channel × Except Fault Unit :=
  match logDirect c "%s" [.str (hex_repr b)] with
  | (c, .error e) => (c, .error e)
  | (c, .ok _) => wireWrite c b

/-- Embeds `Channel.send_server_line`: log via the direct `self.log` call,
translate the line through the descriptor, write it framed and drain. -/
def send_server_line (c : Channel) (server_line : String) :
    Channel × Except Fault Unit :=
  match logDirect c "%s" [.str server_line] with
  | (c, .error e) => (c, .error e)
  | (c, .ok _) =>
      (streamWrite c (c.bolt_protocol.translate_server_line server_line),
        .ok ())

/-- Embeds `Channel.auto_respond`: compute the protocol-mandated automatic reply,
log via the direct `self.log` call, write it framed and drain. -/
def auto_respond (c : Channel) (msg : Msg) : Channel × Except Fault Unit :=
  let struct := c.bolt_protocol.get_auto_response msg
  match logDirect c "(AUTO) S: %s" [.msg struct] with
  | (c, .error e) => (c, .error e)
  | (c, .ok _) => (streamWrite c struct, .ok ())

/-- Embeds `Channel.try_auto_consume`: peek; if the message's name is
whitelisted, consume it for real, log via the direct `self.log` call,
auto-respond and report `true`; else leave it buffered and report
`false`. -/
def try_auto_consume (c : Channel) (whitelist : List String) :
    Channel × Except Fault Bool :=
  match peek c with
  | (c, .error e) => (c, .error e)
  | (c, .ok next_msg) =>
      if next_msg.name ∈ whitelist then
        let c := { c with buffered_msg := none }
        match logDirect c "C: %s" [.msg next_msg] with
        | (c, .error e) => (c, .error e)
        | (c, .ok _) =>
            match auto_respond c next_msg with
            | (c, .error e) => (c, .error e)
            | (c, .ok _) => (c, .ok true)
      else
        (c, .ok false)

/-- The resolved version of one offer under the acceptance test, with a
raised exception collapsed to "not satisfied" — used to state which
offers *satisfy* the acceptance test. -/
def checkRes (proto : BoltProtocol) (hm : Option Nat) (o : VersionOffer) :
    Option Version :=
  match check_requested_version proto hm o with
  | .ok r => r
  | .error _ => none

/-- A fixed example descriptor used by concrete witnesses and
counterexamples. -/
def exProto : BoltProtocol where
  protocol_version := (5, 8)
  equivalent_versions := [(4, 4)]
  features := [1]
  handshake_minor_support := true
  handshake_range_support := true
  max_handshake_manifest_version := 1
  translate_server_line := fun _ => ⟨"", []⟩
  get_auto_response := fun m => m

/-- A feature-byte sequence as the client is trusted to send it: every
byte but the last has the continuation bit `0x80` set, and the final byte
has it clear (the terminator). -/
def terminated : List Nat → Bool
  | [] => false
  | [b] => b &&& 0x80 = 0
  | b :: rest => (decide (b &&& 0x80 ≠ 0)) && terminated rest

/-- A fresh channel as `Channel.__init__` leaves it (no continuation step,
empty buffer slot, manifest/fixed-handshake configuration off unless set
by the caller), paired with its observable transport environment. -/
def initChannel (proto : BoltProtocol) (log : Option Unit)
    (wireIn : List Nat) (pendingMsgs : List Msg) : Channel where
  bolt_protocol := proto
  handshake_manifest := none
  handshake_data := none
  handshake_response_data := none
  handshake_delay := none
  log := log
  handler_step := none
  buffered_msg := none
  wireIn := wireIn
  wireOut := []
  write_ok := true
  pendingMsgs := pendingMsgs
  reads := 0
  logTrace := []
  sentMsgs := []

/-- A second example descriptor, version (5, 7) with feature byte `0x01`
(the spec's manifest-v1 scenario). -/
def exProto57 : BoltProtocol where
  protocol_version := (5, 7)
  equivalent_versions := []
  features := [1]
  handshake_minor_support := true
  handshake_range_support := true
  max_handshake_manifest_version := 1
  translate_server_line := fun _ => ⟨"", []⟩
  get_auto_response := fun m => m

/-- A descriptor claiming manifest-negotiation support up to version 2
(for which no handler exists in the channel). -/
def exProtoM2 : BoltProtocol where
  protocol_version := (5, 8)
  equivalent_versions := []
  features := [1]
  handshake_minor_support := true
  handshake_range_support := true
  max_handshake_manifest_version := 2
  translate_server_line := fun _ => ⟨"", []⟩
  get_auto_response := fun m => m

/-! ## Auxiliary lemmas -/

theorem find_eq_head_filter {α : Type} (p : α → Bool) (l : List α) :
    l.find? p = (l.filter p).head? := by
  induction l with
  | nil => rfl
  | cons a l ih =>
      by_cases h : p a
      · rw [List.find?_cons_of_pos _ h, List.filter_cons_of_pos h]
        rfl
      · rw [List.find?_cons_of_neg _ h, List.filter_cons_of_neg h, ih]

theorem ok_ne_error {α β : Type} {r : β} {e : α} :
    (Except.ok r : Except α β) ≠ Except.error e :=
  fun h => Except.noConfusion h

theorem equivalentLoop_eq_find (major : Nat) (minor range_ : Int)
    (l : List Version) :
    equivalentLoop major minor range_ l =
      l.find? (fun v => decide (v.1 = major ∧ minor ≥ (v.2 : Int)
        ∧ (v.2 : Int) ≥ minor - range_)) := by
  induction l with
  | nil => rfl
  | cons se rest ih =>
      by_cases h : se.1 = major ∧ minor ≥ (se.2 : Int)
          ∧ (se.2 : Int) ≥ minor - range_
      · rw [equivalentLoop, if_pos h, List.find?_cons_of_pos _ (by simpa using h)]
      · rw [equivalentLoop, if_neg h, List.find?_cons_of_neg _ (by simpa using h), ih]

/-! ## C1 — acceptance test for one ordinary legacy offer -/

/-- C1: for an ordinary offer (major ≠ 0xFF) with manifest negotiation not
required, unsupported range/minor negotiation degrade the offer's range
resp. minor to 0, the offer is accepted with the canonical version iff the
majors match and the canonical minor lies in `[minor - range, minor]`,
otherwise the first alias passing the same interval test is returned, and
the offer is rejected iff neither the canonical version nor any alias
matches. -/
theorem claim1_ordinary_offer_acceptance
    (proto : BoltProtocol) (hm : Option Nat) (major minor range_ : Nat)
    (hmaj : major ≠ 0xff) (hman : hm = some 0 ∨ hm = none) :
    check_requested_version proto hm (major, minor, range_) =
      .ok (
        let minorA : Int := if proto.handshake_minor_support then (minor : Int) else 0
        let rangeA : Int := if proto.handshake_range_support then (range_ : Int) else 0
        if proto.protocol_version.1 = major
            ∧ minorA ≥ (proto.protocol_version.2 : Int)
            ∧ (proto.protocol_version.2 : Int) ≥ minorA - rangeA then
          some proto.protocol_version
        else
          proto.equivalent_versions.find? fun v =>
            decide (v.1 = major ∧ minorA ≥ (v.2 : Int)
              ∧ (v.2 : Int) ≥ minorA - rangeA)) := by
  unfold check_requested_version
  rcases hman with h | h <;> subst h <;>
    simp [hmaj, equivalentLoop_eq_find] <;>
    rw [apply_ite Except.ok] <;>
    congr

/-- Witness for C1 at a concrete descriptor and offer. -/
theorem claim1_ordinary_offer_acceptance_witness :
    check_requested_version
      { protocol_version := (5, 8)
        equivalent_versions := [(4, 4)]
        features := [1]
        handshake_minor_support := true
        handshake_range_support := true
        max_handshake_manifest_version := 1
        translate_server_line := fun _ => ⟨"", []⟩
        get_auto_response := fun m => m }
      none (5, 9, 2) = .ok (some (5, 8)) :=
  claim1_ordinary_offer_acceptance _ none 5 9 2 (by decide) (Or.inr rfl)

/-! ## C2 — first-match semantics of the offer loop -/

/-- Counterexample to C2 as stated: in the offer list
`[(0xFF, 1, 1), (5, 8, 0)]` the offer `(5, 8, 0)` satisfies the
acceptance test, yet the loop does not accept it — the earlier manifest
offer with non-zero range makes the whole negotiation raise
`NotImplementedError`, so a non-satisfying offer does change the
outcome. -/
theorem claim2_counterexample :
    check_requested_version exProto none (5, 8, 0) = .ok (some (5, 8))
    ∧ offerLoop exProto none [(0xff, 1, 1), (5, 8, 0)] =
        .error (.notImplementedError
          "Handshake range negotiation is not yet implemented") := by
  constructor <;> rfl

/-- C2 (amended): provided no offer in the list raises (i.e. no manifest
offer with non-zero range), the loop accepts exactly the first offer in
client order that satisfies the acceptance test, yielding that offer's
resolved version, and accepts none when no offer satisfies it; moreover,
for two such lists agreeing on their satisfying offers (in order), the
outcome is identical — changing or reordering non-satisfying offers never
changes which version is accepted. -/
theorem claim2_first_match (proto : BoltProtocol) (hm : Option Nat) :
    (∀ offers : List VersionOffer,
      (∀ o ∈ offers, ∀ e, check_requested_version proto hm o ≠ .error e) →
      offerLoop proto hm offers =
        .ok ((offers.find? fun o => (checkRes proto hm o).isSome).bind
          (checkRes proto hm)))
    ∧ ∀ offers₁ offers₂ : List VersionOffer,
        (∀ o ∈ offers₁, ∀ e, check_requested_version proto hm o ≠ .error e) →
        (∀ o ∈ offers₂, ∀ e, check_requested_version proto hm o ≠ .error e) →
        (offers₁.filter fun o => (checkRes proto hm o).isSome) =
          (offers₂.filter fun o => (checkRes proto hm o).isSome) →
        offerLoop proto hm offers₁ = offerLoop proto hm offers₂ := by
  have key : ∀ offers : List VersionOffer,
      (∀ o ∈ offers, ∀ e, check_requested_version proto hm o ≠ .error e) →
      offerLoop proto hm offers =
        .ok (((offers.filter fun o =>
          (checkRes proto hm o).isSome).head?).bind (checkRes proto hm)) := by
    intro offers hclean
    induction offers with
    | nil => rfl
    | cons o rest ih =>
        have ho := hclean o (List.mem_cons_self o rest)
        have hrest : ∀ o ∈ rest, ∀ e,
            check_requested_version proto hm o ≠ .error e :=
          fun o' h' => hclean o' (List.mem_cons_of_mem _ h')
        rw [offerLoop]
        cases hc : check_requested_version proto hm o with
        | error e => exact absurd hc (ho e)
        | ok r =>
            cases r with
            | some a =>
                simp [List.filter_cons, checkRes, hc]
            | none =>
                simp [List.filter_cons, checkRes, hc, ih hrest]
  constructor
  · intro offers hclean
    rw [key offers hclean]
    congr 1
    rw [find_eq_head_filter]
  · intro offers₁ offers₂ h₁ h₂ hfil
    rw [key offers₁ h₁, key offers₂ h₂, hfil]

/-- Witness for C2 (amended) on a concrete pair of offer lists: the
second list reorders/alters the non-satisfying offers of the first;
both accept `(5, 8)` from the satisfying offer `(5, 9, 2)`. -/
theorem claim2_first_match_witness :
    offerLoop exProto none [(6, 0, 0), (5, 9, 2), (3, 3, 3)] = .ok (some (5, 8))
    ∧ offerLoop exProto none [(3, 3, 3), (7, 1, 0), (5, 9, 2)] =
        .ok (some (5, 8)) := by
  have hc1 : ∀ o ∈ ([(6, 0, 0), (5, 9, 2), (3, 3, 3)] : List VersionOffer),
      ∀ e, check_requested_version exProto none o ≠ .error e := by
    intro o ho e
    fin_cases ho <;> exact ok_ne_error
  have hc2 : ∀ o ∈ ([(3, 3, 3), (7, 1, 0), (5, 9, 2)] : List VersionOffer),
      ∀ e, check_requested_version exProto none o ≠ .error e := by
    intro o ho e
    fin_cases ho <;> exact ok_ne_error
  have h := (claim2_first_match exProto none).2
    [(6, 0, 0), (5, 9, 2), (3, 3, 3)] [(3, 3, 3), (7, 1, 0), (5, 9, 2)]
    hc1 hc2 (by rfl)
  have h1 : offerLoop exProto none [(6, 0, 0), (5, 9, 2), (3, 3, 3)] =
      .ok (some (5, 8)) := by
    rw [(claim2_first_match exProto none).1 _ hc1]
    rfl
  exact ⟨h1, h ▸ h1⟩

/-! ## Frame lemmas: which channel fields each atomic operation leaves
unchanged. -/

@[simp] theorem recordLog_frame (c : Channel) (f : String) (a : List LogArg) :
    (recordLog c f a).wireIn = c.wireIn
    ∧ (recordLog c f a).wireOut = c.wireOut
    ∧ (recordLog c f a).write_ok = c.write_ok
    ∧ (recordLog c f a).bolt_protocol = c.bolt_protocol
    ∧ (recordLog c f a).handshake_manifest = c.handshake_manifest
    ∧ (recordLog c f a).handler_step = c.handler_step
    ∧ (recordLog c f a).log = c.log
    ∧ (recordLog c f a).buffered_msg = c.buffered_msg
    ∧ (recordLog c f a).pendingMsgs = c.pendingMsgs
    ∧ (recordLog c f a).reads = c.reads
    ∧ (recordLog c f a).sentMsgs = c.sentMsgs
    ∧ (recordLog c f a).handshake_delay = c.handshake_delay
    ∧ (recordLog c f a).handshake_data = c.handshake_data := by
  simp [recordLog]

@[simp] theorem log_guarded_wireIn (c : Channel) (f : String) (a : List LogArg) :
    (log_guarded c f a).wireIn = c.wireIn := by
  unfold log_guarded recordLog
  split <;> rfl

@[simp] theorem log_guarded_wireOut (c : Channel) (f : String) (a : List LogArg) :
    (log_guarded c f a).wireOut = c.wireOut := by
  unfold log_guarded recordLog
  split <;> rfl

@[simp] theorem log_guarded_write_ok (c : Channel) (f : String) (a : List LogArg) :
    (log_guarded c f a).write_ok = c.write_ok := by
  unfold log_guarded recordLog
  split <;> rfl

@[simp] theorem log_guarded_bolt_protocol (c : Channel) (f : String)
    (a : List LogArg) :
    (log_guarded c f a).bolt_protocol = c.bolt_protocol := by
  unfold log_guarded recordLog
  split <;> rfl

@[simp] theorem log_guarded_handshake_manifest (c : Channel) (f : String)
    (a : List LogArg) :
    (log_guarded c f a).handshake_manifest = c.handshake_manifest := by
  unfold log_guarded recordLog
  split <;> rfl

@[simp] theorem log_guarded_handler_step (c : Channel) (f : String)
    (a : List LogArg) :
    (log_guarded c f a).handler_step = c.handler_step := by
  unfold log_guarded recordLog
  split <;> rfl

@[simp] theorem log_guarded_log (c : Channel) (f : String) (a : List LogArg) :
    (log_guarded c f a).log = c.log := by
  unfold log_guarded recordLog
  split <;> rfl

@[simp] theorem log_guarded_handshake_delay (c : Channel) (f : String)
    (a : List LogArg) :
    (log_guarded c f a).handshake_delay = c.handshake_delay := by
  unfold log_guarded recordLog
  split <;> rfl

@[simp] theorem log_guarded_handshake_data (c : Channel) (f : String)
    (a : List LogArg) :
    (log_guarded c f a).handshake_data = c.handshake_data := by
  unfold log_guarded recordLog
  split <;> rfl

@[simp] theorem log_guarded_sentMsgs (c : Channel) (f : String)
    (a : List LogArg) :
    (log_guarded c f a).sentMsgs = c.sentMsgs := by
  unfold log_guarded recordLog
  split <;> rfl

@[simp] theorem log_guarded_pendingMsgs (c : Channel) (f : String)
    (a : List LogArg) :
    (log_guarded c f a).pendingMsgs = c.pendingMsgs := by
  unfold log_guarded recordLog
  split <;> rfl

@[simp] theorem log_guarded_reads (c : Channel) (f : String)
    (a : List LogArg) :
    (log_guarded c f a).reads = c.reads := by
  unfold log_guarded recordLog
  split <;> rfl

@[simp] theorem log_guarded_buffered_msg (c : Channel) (f : String)
    (a : List LogArg) :
    (log_guarded c f a).buffered_msg = c.buffered_msg := by
  unfold log_guarded recordLog
  split <;> rfl

@[simp] theorem delay_handshake_wireIn (c : Channel) :
    (delay_handshake c).wireIn = c.wireIn := by
  unfold delay_handshake
  split <;> (try split) <;> simp

@[simp] theorem delay_handshake_wireOut (c : Channel) :
    (delay_handshake c).wireOut = c.wireOut := by
  unfold delay_handshake
  split <;> (try split) <;> simp

@[simp] theorem delay_handshake_write_ok (c : Channel) :
    (delay_handshake c).write_ok = c.write_ok := by
  unfold delay_handshake
  split <;> (try split) <;> simp

@[simp] theorem delay_handshake_bolt_protocol (c : Channel) :
    (delay_handshake c).bolt_protocol = c.bolt_protocol := by
  unfold delay_handshake
  split <;> (try split) <;> simp

@[simp] theorem delay_handshake_handler_step (c : Channel) :
    (delay_handshake c).handler_step = c.handler_step := by
  unfold delay_handshake
  split <;> (try split) <;> simp

@[simp] theorem delay_handshake_log (c : Channel) :
    (delay_handshake c).log = c.log := by
  unfold delay_handshake
  split <;> (try split) <;> simp

@[simp] theorem abort_handshake_wireOut (c : Channel) :
    (abort_handshake c).wireOut =
      c.wireOut ++ (if c.write_ok then [0, 0, 0, 0] else []) := by
  unfold abort_handshake wireWrite
  by_cases h : c.write_ok <;> simp [h]

@[simp] theorem abort_handshake_wireIn (c : Channel) :
    (abort_handshake c).wireIn = c.wireIn := by
  unfold abort_handshake wireWrite
  by_cases h : c.write_ok <;> simp [h]

@[simp] theorem abort_handshake_bolt_protocol (c : Channel) :
    (abort_handshake c).bolt_protocol = c.bolt_protocol := by
  unfold abort_handshake wireWrite
  by_cases h : c.write_ok <;> simp [h]

@[simp] theorem abort_handshake_handler_step (c : Channel) :
    (abort_handshake c).handler_step = c.handler_step := by
  unfold abort_handshake wireWrite
  by_cases h : c.write_ok <;> simp [h]

@[simp] theorem abort_handshake_write_ok (c : Channel) :
    (abort_handshake c).write_ok = c.write_ok := by
  unfold abort_handshake wireWrite
  by_cases h : c.write_ok <;> simp [h]

@[simp] theorem abort_handshake_log (c : Channel) :
    (abort_handshake c).log = c.log := by
  unfold abort_handshake wireWrite
  by_cases h : c.write_ok <;> simp [h]

/-! ## C9 — preamble magic-byte check -/

/-- C9: for every 4-byte preamble different from `60 60 B0 17` the check
raises the fatal transport fault `ServerExit` whose message names both the
fixed expected constant `6060B017` and the received bytes in hex; for the
exact magic bytes no fault is raised. -/
theorem claim9_preamble_magic (c : Channel) (request rest : List Nat)
    (hw : c.wireIn = request ++ rest) (hlen : request.length = 4) :
    (request ≠ [0x60, 0x60, 0xb0, 0x17] →
      ∃ c', preamble c = (c', .error (.serverExit
        ("Expected the magic header " ++ "6060B017" ++ ", received "
          ++ hex_repr request))))
    ∧ (request = [0x60, 0x60, 0xb0, 0x17] →
      ∃ c', preamble c = (c', .ok ())) := by
  unfold preamble wireRead
  rw [hw, ← hlen]
  constructor
  · intro h
    simp [List.take_left, List.drop_left, h]
  · intro h
    simp [List.take_left, List.drop_left, h]

/-- Witness for C9 at a concrete wrong preamble and at the magic bytes. -/
theorem claim9_preamble_magic_witness :
    (∃ c', preamble (initChannel exProto (some ()) [0x47, 0x45, 0x54, 0x20] []) =
      (c', .error (.serverExit
        ("Expected the magic header " ++ "6060B017" ++ ", received "
          ++ hex_repr [0x47, 0x45, 0x54, 0x20]))))
    ∧ (∃ c', preamble (initChannel exProto (some ()) [0x60, 0x60, 0xb0, 0x17] []) =
        (c', .ok ())) := by
  constructor
  · exact (claim9_preamble_magic (initChannel exProto (some ())
      [0x47, 0x45, 0x54, 0x20] []) [0x47, 0x45, 0x54, 0x20] []
      (by simp [initChannel]) rfl).1 (by decide)
  · exact (claim9_preamble_magic (initChannel exProto (some ())
      [0x60, 0x60, 0xb0, 0x17] []) [0x60, 0x60, 0xb0, 0x17] []
      (by simp [initChannel]) rfl).2 rfl

/-! ## C4 — failed negotiation: best-effort abort, then script fault -/

/-- C4: whenever no offer in the decoded 16-byte handshake is accepted,
`_version_handshake_init` appends the 4-byte all-zero abort sequence to
the output when the transport still accepts writes and swallows the write
error otherwise, and in both cases raises a `ScriptFailure` (a
script/protocol fault, not the fatal `ServerExit`) whose message names
the supported protocol version, the manifest version constraint, and the
16 offered bytes in hex. -/
theorem claim4_abort_and_script_fault (c : Channel) (request rest : List Nat)
    (hw : c.wireIn = request ++ rest) (hlen : request.length = 16)
    (hfail : offerLoop c.bolt_protocol c.handshake_manifest
      (decode_versions request) = .ok none) :
    ∃ c', version_handshake_init c none = (c', .error (.scriptFailure
        ("Failed handshake, stub server talks protocol "
          ++ versionRepr c.bolt_protocol.protocol_version ++ " "
          ++ "(manifest version "
          ++ ("<= " ++ toString c.bolt_protocol.max_handshake_manifest_version)
          ++ ")."
          ++ "Driver sent handshake: " ++ hex_repr request)))
      ∧ c'.wireOut = c.wireOut ++ (if c.write_ok then [0, 0, 0, 0] else []) := by
  unfold version_handshake_init wireRead
  rw [hw, ← hlen]
  simp [List.take_left, List.drop_left, hfail]

/-- Witness for C4: a 16-byte all-zero offer against the example
descriptor accepts nothing; the abort bytes are written and the script
fault raised. -/
theorem claim4_abort_and_script_fault_witness :
    ∃ c', version_handshake_init
      (initChannel exProto (some ())
        [0, 0, 0, 0, 0, 0, 0, 0, 0, 0, 0, 0, 0, 0, 0, 0] []) none =
      (c', .error (.scriptFailure
        ("Failed handshake, stub server talks protocol "
          ++ versionRepr exProto.protocol_version ++ " "
          ++ "(manifest version "
          ++ ("<= " ++ toString exProto.max_handshake_manifest_version)
          ++ ")."
          ++ "Driver sent handshake: "
          ++ hex_repr [0, 0, 0, 0, 0, 0, 0, 0, 0, 0, 0, 0, 0, 0, 0, 0])))
      ∧ c'.wireOut = [] ++ (if true then [0, 0, 0, 0] else []) := by
  have h := claim4_abort_and_script_fault
    (initChannel exProto (some ())
      [0, 0, 0, 0, 0, 0, 0, 0, 0, 0, 0, 0, 0, 0, 0, 0] [])
    [0, 0, 0, 0, 0, 0, 0, 0, 0, 0, 0, 0, 0, 0, 0, 0] []
    (by simp [initChannel]) rfl (by rfl)
  simpa [initChannel] using h

/-! ## C3 — manifest v1 final validation step -/

/-- The `while` loop of step 3 consumes exactly a terminated feature
sequence: started on its first byte with the remainder on the wire, it
returns that remainder as the appended tail and leaves the rest of the
input untouched. -/
theorem readFeatureTail_terminated (fsTail : List Nat) (b : Nat)
    (rest : List Nat) (hterm : terminated (b :: fsTail) = true) :
    readFeatureTail b (fsTail ++ rest) = some (fsTail, rest) := by
  induction fsTail generalizing b with
  | nil =>
      have hb : b &&& 0x80 = 0 := by simpa [terminated] using hterm
      rw [readFeatureTail.eq_def]
      simp [hb]
  | cons b' fsTail ih =>
      have hb : ¬(b &&& 0x80 = 0) := by
        rcases fsTail with _ | ⟨x, xs⟩ <;>
          simpa [terminated] using fun h => absurd hterm (by simp [terminated, h])
      have hterm' : terminated (b' :: fsTail) = true := by
        rcases fsTail with _ | ⟨x, xs⟩ <;> simp [terminated] at hterm ⊢ <;>
          tauto
      rw [readFeatureTail.eq_def]
      simp only [List.cons_append, hb, if_neg hb, ih b' hterm']
      simp

/-- C3: in the manifest v1 dialect, the final validation step succeeds —
sending no further bytes and no further messages — iff the client's
4-byte version pick is exactly the offered version `00 00 minor major`
and the accumulated feature sequence (terminated by the first byte with
the `0x80` bit clear) is exactly the descriptor's feature sequence; a
version mismatch raises a `ScriptFailure` naming the received and offered
version bytes (regardless of the features), and a feature mismatch with a
correct version raises a `ScriptFailure` naming the received and offered
feature bytes. -/
theorem claim3_manifest_v1_validation (c : Channel) (client_pick : List Nat)
    (b : Nat) (fsTail rest : List Nat)
    (hterm : terminated (b :: fsTail) = true)
    (hw : c.wireIn = fsTail ++ rest) :
    ((handshake_v1_step3 c client_pick [b]).2 = .ok () ↔
      client_pick = [0, 0, c.bolt_protocol.protocol_version.2,
          c.bolt_protocol.protocol_version.1]
        ∧ b :: fsTail = c.bolt_protocol.features)
    ∧ (handshake_v1_step3 c client_pick [b]).1.wireOut = c.wireOut
    ∧ (handshake_v1_step3 c client_pick [b]).1.sentMsgs = c.sentMsgs
    ∧ (client_pick ≠ [0, 0, c.bolt_protocol.protocol_version.2,
          c.bolt_protocol.protocol_version.1] →
        (handshake_v1_step3 c client_pick [b]).2 = .error (.scriptFailure
          ("Failed handshake, client picked different version "
            ++ hex_repr client_pick ++ " than offered "
            ++ hex_repr [0, 0, c.bolt_protocol.protocol_version.2,
                c.bolt_protocol.protocol_version.1])))
    ∧ (client_pick = [0, 0, c.bolt_protocol.protocol_version.2,
          c.bolt_protocol.protocol_version.1] →
        b :: fsTail ≠ c.bolt_protocol.features →
        (handshake_v1_step3 c client_pick [b]).2 = .error (.scriptFailure
          ("Failed handshake, client picked different features ("
            ++ hex_repr (b :: fsTail) ++ ") than offered ("
            ++ hex_repr c.bolt_protocol.features ++ ")"))) := by
  have hread : readFeatureTail (([b] : List Nat).getLastD 0) c.wireIn =
      some (fsTail, rest) := by
    rw [hw]
    simpa using readFeatureTail_terminated fsTail b rest hterm
  unfold handshake_v1_step3
  rw [hread]
  by_cases hv : client_pick = [0, 0, c.bolt_protocol.protocol_version.2,
      c.bolt_protocol.protocol_version.1]
  · by_cases hf : b :: fsTail = c.bolt_protocol.features
    · simp [hv, hf]
    · simp [hv, hf]
  · simp [hv]

/-- Witness for C3: descriptor version (5, 7) with features `[0x01]`; the
client echoes `00 00 07 05` and feature byte `0x01` — success. -/
theorem claim3_manifest_v1_validation_witness :
    (handshake_v1_step3 (initChannel exProto57 (some ()) [] [])
      [0, 0, 7, 5] [1]).2 = .ok () := by
  have h := (claim3_manifest_v1_validation
    (initChannel exProto57 (some ()) [] []) [0, 0, 7, 5] 1 [] []
    (by decide) (by simp [initChannel])).1
  exact h.mpr ⟨rfl, rfl⟩

/-! ## C5 — unimplemented-feature faults -/

/-- Lemma: `_version_handshake_init` never changes the continuation slot or the
transport write health. -/
theorem version_handshake_init_frame (c : Channel) (mv : Option Nat) :
    ((version_handshake_init c mv).1).handler_step = c.handler_step
    ∧ ((version_handshake_init c mv).1).write_ok = c.write_ok := by
  unfold version_handshake_init wireRead
  by_cases h : 16 ≤ c.wireIn.length <;> simp [h] <;> split <;> simp

/-- C5: a manifest offer (major = 0xFF) with non-zero range raises
`NotImplementedError` (an unimplemented-feature fault, distinct by
construction from `ScriptFailure`); and an accepted manifest version
whose minor has no handler (the only implemented one is minor = 1) makes
`version_handshake` raise an explicit `NotImplementedError` instead of
falling back to another dialect. -/
theorem claim5_unimplemented_faults :
    (∀ (proto : BoltProtocol) (hm : Option Nat) (minor range_ : Nat),
      range_ ≠ 0 →
      check_requested_version proto hm (0xff, minor, range_) =
        .error (.notImplementedError
          "Handshake range negotiation is not yet implemented"))
    ∧ ∀ (c c₁ : Channel) (v : Version),
        c.handler_step = none → c.handshake_data = none →
        version_handshake_init c none = (c₁, .ok v) →
        v.1 = 0xff → v.2 ≠ 1 →
        version_handshake c = (c₁, .error (.notImplementedError
          ("Handshake manifest " ++ optNatRepr c₁.handshake_manifest
            ++ " is not implemented"))) := by
  constructor
  · intro proto hm minor range_ hr
    unfold check_requested_version
    simp [hr]
  · intro c c₁ v h1 h2 hinit hv1 hv2
    unfold version_handshake
    simp [h1, h2, hinit, hv1, hv2]

/-- Witness for C5: the range-negotiation fault at offer
`(0xFF, 1, 1)`, and the missing-handler fault for an accepted manifest
version 2 (descriptor allowing manifest versions up to 2). -/
theorem claim5_unimplemented_faults_witness :
    check_requested_version exProto none (0xff, 1, 1) =
      .error (.notImplementedError
        "Handshake range negotiation is not yet implemented")
    ∧ (version_handshake (initChannel exProtoM2 (some ())
        ([0, 0, 2, 0xff] ++ List.replicate 12 0) [])).2 =
      .error (.notImplementedError
        "Handshake manifest None is not implemented") := by
  refine ⟨claim5_unimplemented_faults.1 exProto none 1 1 (by decide), ?_⟩
  have h2 : (version_handshake_init (initChannel exProtoM2 (some ())
      ([0, 0, 2, 0xff] ++ List.replicate 12 0) []) none).2 =
      .ok (0xff, 2) := rfl
  have hpair : version_handshake_init (initChannel exProtoM2 (some ())
      ([0, 0, 2, 0xff] ++ List.replicate 12 0) []) none =
      ((version_handshake_init (initChannel exProtoM2 (some ())
        ([0, 0, 2, 0xff] ++ List.replicate 12 0) []) none).1,
        .ok (0xff, 2)) := by
    rw [← h2]
  have h := claim5_unimplemented_faults.2 _ _ (0xff, 2) rfl rfl hpair rfl
    (by decide)
  rw [h]
  rfl

/-! ## C8 — legacy reply bytes -/

/-- C8: every successful ordinary negotiation — whatever accepted version
`(major, minor)` the acceptance test produced, canonical or alias — ends
with the server writing exactly the 4 bytes `00 00 minor major` (minor
before major) as the terminal handshake step: nothing more is read, no
continuation step is left pending. -/
theorem claim8_legacy_reply :
    (∀ (c : Channel) (v : Version), c.write_ok = true →
      ∃ c', version_handshake_no_manifest c v = (c', .ok ())
        ∧ c'.wireOut = c.wireOut ++ [0, 0, v.2, v.1]
        ∧ c'.wireIn = c.wireIn
        ∧ c'.handler_step = c.handler_step)
    ∧ ∀ (c c₁ : Channel) (v : Version),
        c.handler_step = none → c.handshake_data = none →
        version_handshake_init c none = (c₁, .ok v) →
        v.1 < 0xff → c.write_ok = true →
        ∃ c', version_handshake c = (c', .ok ())
          ∧ c'.wireOut = c₁.wireOut ++ [0, 0, v.2, v.1]
          ∧ c'.wireIn = c₁.wireIn
          ∧ c'.handler_step = none := by
  have part1 : ∀ (c : Channel) (v : Version), c.write_ok = true →
      ∃ c', version_handshake_no_manifest c v = (c', .ok ())
        ∧ c'.wireOut = c.wireOut ++ [0, 0, v.2, v.1]
        ∧ c'.wireIn = c.wireIn
        ∧ c'.handler_step = c.handler_step := by
    intro c v hw
    unfold version_handshake_no_manifest wireWrite
    simp [hw]
  refine ⟨part1, ?_⟩
  intro c c₁ v h1 h2 hinit hv hw
  have hframe := version_handshake_init_frame c none
  rw [hinit] at hframe
  dsimp only at hframe
  obtain ⟨hstep, hwok⟩ := hframe
  have hrun : version_handshake c =
      version_handshake_no_manifest (delay_handshake c₁) v := by
    unfold version_handshake
    simp [h1, h2, hinit, hv]
  obtain ⟨c', hc', hout, hin, hstep'⟩ :=
    part1 (delay_handshake c₁) v (by simp [hwok, hw])
  refine ⟨c', ?_, ?_, ?_, ?_⟩
  · rw [hrun, hc']
  · rw [hout]
    simp
  · rw [hin]
    simp
  · rw [hstep']
    simp [hstep, h1]

/-- Witness for C8: the example descriptor (5, 8) accepts the alias-free
offer `(5, 9, 2)` and replies `00 00 08 05`. -/
theorem claim8_legacy_reply_witness :
    ∃ c', version_handshake (initChannel exProto (some ())
        ([0, 2, 9, 5] ++ List.replicate 12 0) []) = (c', .ok ())
      ∧ c'.wireOut =
          (version_handshake_init (initChannel exProto (some ())
            ([0, 2, 9, 5] ++ List.replicate 12 0) []) none).1.wireOut
            ++ [0, 0, 8, 5]
      ∧ c'.wireIn =
          (version_handshake_init (initChannel exProto (some ())
            ([0, 2, 9, 5] ++ List.replicate 12 0) []) none).1.wireIn
      ∧ c'.handler_step = none := by
  have h2 : (version_handshake_init (initChannel exProto (some ())
      ([0, 2, 9, 5] ++ List.replicate 12 0) []) none).2 = .ok (5, 8) := rfl
  have hpair : version_handshake_init (initChannel exProto (some ())
      ([0, 2, 9, 5] ++ List.replicate 12 0) []) none =
      ((version_handshake_init (initChannel exProto (some ())
        ([0, 2, 9, 5] ++ List.replicate 12 0) []) none).1, .ok (5, 8)) := by
    rw [← h2]
  exact claim8_legacy_reply.2 _ _ (5, 8) rfl rfl hpair (by decide) rfl

/-! ## No-log frame lemmas: with `log_cb = None`, the guarded `_log` calls
do nothing and no handshake operation ever fails by calling `None`. -/

theorem log_guarded_of_none (c : Channel) (f : String) (a : List LogArg)
    (h : c.log = none) : log_guarded c f a = c := by
  unfold log_guarded
  simp [h]

theorem delay_handshake_of_none (c : Channel) (h : c.log = none) :
    delay_handshake c = c := by
  unfold delay_handshake
  split <;> (try split) <;> simp [log_guarded_of_none, h]

theorem abort_handshake_of_none (c : Channel) (h : c.log = none) :
    (abort_handshake c).logTrace = c.logTrace := by
  unfold abort_handshake wireWrite
  simp [log_guarded_of_none, h]
  by_cases hw : c.write_ok <;> simp [hw]

@[simp] theorem wireRead_fst_log (c : Channel) (n : Nat) :
    ((wireRead c n).1).log = c.log := by
  unfold wireRead
  split <;> rfl

@[simp] theorem wireRead_fst_logTrace (c : Channel) (n : Nat) :
    ((wireRead c n).1).logTrace = c.logTrace := by
  unfold wireRead
  split <;> rfl

theorem ite_ok_ne_error {ε β : Type} (P : Prop) [Decidable P] (a b : β)
    (e : ε) :
    (if P then Except.ok a else Except.ok b) ≠ Except.error e := by
  by_cases h : P <;> simp [h]

theorem check_not_noneNotCallable (proto : BoltProtocol) (hm : Option Nat)
    (o : VersionOffer) :
    check_requested_version proto hm o ≠ .error .noneNotCallable := by
  intro hcontra
  unfold check_requested_version at hcontra
  repeat' split at hcontra
  all_goals try simp_all [ite_ok_ne_error]
  all_goals by_cases h255 : o.1 = 255 <;> by_cases h0 : o.2.2 = 0 <;>
    simp_all [ite_ok_ne_error]

theorem offerLoop_not_noneNotCallable (proto : BoltProtocol)
    (hm : Option Nat) (l : List VersionOffer) :
    offerLoop proto hm l ≠ .error .noneNotCallable := by
  induction l with
  | nil => simp [offerLoop]
  | cons o rest ih =>
      rw [offerLoop]
      cases hc : check_requested_version proto hm o with
      | error e =>
          intro hcontra
          exact check_not_noneNotCallable proto hm o
            (by rw [hc, show e = Fault.noneNotCallable from
              (Except.error.injEq _ _).mp hcontra])
      | ok r => cases r <;> simpa using ih

theorem noLog_step3 (c : Channel) (cp fp : List Nat) (h : c.log = none) :
    (handshake_v1_step3 c cp fp).1.logTrace = c.logTrace
    ∧ (handshake_v1_step3 c cp fp).2 ≠ .error .noneNotCallable := by
  unfold handshake_v1_step3
  cases hres : readFeatureTail (fp.getLastD 0) c.wireIn with
  | none => exact ⟨rfl, by simp⟩
  | some pr =>
      obtain ⟨tail, rem⟩ := pr
      dsimp only
      simp [log_guarded_of_none, h]
      by_cases hv : cp = [0, 0, c.bolt_protocol.protocol_version.2,
          c.bolt_protocol.protocol_version.1]
      · by_cases hf : fp ++ tail = c.bolt_protocol.features <;>
          simp [hv, hf]
      · simp [hv]

theorem noLog_step2 (c : Channel) (cp : List Nat) (h : c.log = none) :
    (handshake_v1_step2 c cp).1.logTrace = c.logTrace
    ∧ (handshake_v1_step2 c cp).2 ≠ .error .noneNotCallable := by
  unfold handshake_v1_step2 wireRead
  by_cases hr : 1 ≤ c.wireIn.length
  · simp only [hr, if_pos hr]
    exact noLog_step3 _ cp _ h
  · simp [hr]

theorem noLog_step1 (c : Channel) (h : c.log = none) :
    (handshake_v1_step1 c).1.logTrace = c.logTrace
    ∧ (handshake_v1_step1 c).2 ≠ .error .noneNotCallable := by
  unfold handshake_v1_step1 wireRead
  by_cases hr : 4 ≤ c.wireIn.length
  · simp only [hr, if_pos hr]
    exact noLog_step2 _ _ h
  · simp [hr]

theorem noLog_manifest_v1 (c : Channel) (v : Version) (h : c.log = none) :
    (version_handshake_manifest_v1 c v).1.logTrace = c.logTrace
    ∧ (version_handshake_manifest_v1 c v).2 ≠ .error .noneNotCallable := by
  unfold version_handshake_manifest_v1 wireWrite
  by_cases hv : v = (0xff, 1)
  · subst hv
    by_cases hw : c.write_ok
    · simp [hw, log_guarded_of_none, h]
      constructor
      · rw [(noLog_step1 _ (by simp [h])).1]
      · exact (noLog_step1 _ (by simp [h])).2
    · simp [hw]
  · simp [hv]

theorem noLog_no_manifest (c : Channel) (v : Version) (h : c.log = none) :
    (version_handshake_no_manifest c v).1.logTrace = c.logTrace
    ∧ (version_handshake_no_manifest c v).2 ≠ .error .noneNotCallable := by
  unfold version_handshake_no_manifest wireWrite
  by_cases hw : c.write_ok
  · simp [hw, log_guarded_of_none, h]
  · simp [hw]

theorem noLog_fixed (c : Channel) (h : c.log = none) :
    (version_handshake_fixed c).1.logTrace = c.logTrace
    ∧ (version_handshake_fixed c).2 ≠ .error .noneNotCallable := by
  unfold version_handshake_fixed wireRead wireWrite
  by_cases hr : 16 ≤ c.wireIn.length
  · by_cases hw : c.write_ok
    · cases hrd : c.handshake_response_data with
      | none =>
          simp [hr, hw, hrd, log_guarded_of_none, delay_handshake_of_none, h]
      | some expected =>
          by_cases hr2 : expected.length ≤ c.wireIn.length - 16
          · simp [hr, hw, hrd, hr2, log_guarded_of_none,
              delay_handshake_of_none, h]
            split <;> simp
          · simp [hr, hw, hrd, hr2, log_guarded_of_none,
              delay_handshake_of_none, h]
    · simp [hr, hw, log_guarded_of_none, delay_handshake_of_none, h]
  · simp [hr]

theorem noLog_init (c : Channel) (mv : Option Nat) (h : c.log = none) :
    (version_handshake_init c mv).1.logTrace = c.logTrace
    ∧ (version_handshake_init c mv).2 ≠ .error .noneNotCallable := by
  unfold version_handshake_init wireRead
  by_cases hr : 16 ≤ c.wireIn.length
  · cases ho : offerLoop c.bolt_protocol c.handshake_manifest
        (decode_versions (c.wireIn.take 16)) with
    | error e =>
        simp [hr, ho, log_guarded_of_none, h]
        intro hcontra
        exact offerLoop_not_noneNotCallable _ _ _ (by rw [ho, hcontra])
    | ok r =>
        cases r with
        | some a => simp [hr, ho, log_guarded_of_none, h]
        | none =>
            simp [hr, ho, log_guarded_of_none, abort_handshake_of_none, h]
  · simp [hr]

theorem noLog_version_handshake (c : Channel) (h : c.log = none) :
    (version_handshake c).1.logTrace = c.logTrace
    ∧ (version_handshake c).2 ≠ .error .noneNotCallable := by
  cases hs : c.handler_step with
  | some step =>
      have hrun : version_handshake c = run_handler_step c step := by
        unfold version_handshake
        rw [hs]
      rw [hrun]
      cases step with
      | v1_step1 => simpa [run_handler_step] using noLog_step1 c h
      | v1_step2 cp => simpa [run_handler_step] using noLog_step2 c cp h
      | v1_step3 cp fp => simpa [run_handler_step] using noLog_step3 c cp fp h
  | none =>
      cases hd : c.handshake_data with
      | some d =>
          have hrun : version_handshake c = version_handshake_fixed c := by
            unfold version_handshake
            rw [hs, hd]
          rw [hrun]
          exact noLog_fixed c h
      | none =>
          cases hi : version_handshake_init c none with
          | mk c1 r =>
              have hframe := noLog_init c none h
              rw [hi] at hframe
              have hlog1 : c1.log = none := by
                have hl : (version_handshake_init c none).1.log = c.log := by
                  unfold version_handshake_init wireRead
                  by_cases hr : 16 ≤ c.wireIn.length <;> simp [hr] <;>
                    split <;> simp
                rw [hi] at hl
                rw [hl, h]
              cases r with
              | error e =>
                  have hrun : version_handshake c = (c1, .error e) := by
                    unfold version_handshake
                    rw [hs, hd, hi]
                  rw [hrun]
                  have he : e ≠ Fault.noneNotCallable := by
                    simpa using hframe.2
                  exact ⟨hframe.1, by simpa using he⟩
              | ok v =>
                  by_cases hv : v.1 < 0xff
                  · have hrun : version_handshake c =
                        version_handshake_no_manifest (delay_handshake c1) v := by
                      unfold version_handshake
                      rw [hs, hd, hi]
                      simp [hv]
                    rw [hrun, delay_handshake_of_none _ hlog1]
                    have hnm := noLog_no_manifest c1 v hlog1
                    refine ⟨?_, hnm.2⟩
                    rw [hnm.1]
                    exact hframe.1
                  · by_cases hv2 : v.2 = 1
                    · have hrun : version_handshake c =
                          version_handshake_manifest_v1 (delay_handshake c1) v := by
                        unfold version_handshake
                        rw [hs, hd, hi]
                        simp [hv, hv2]
                      rw [hrun, delay_handshake_of_none _ hlog1]
                      have hmf := noLog_manifest_v1 c1 v hlog1
                      refine ⟨?_, hmf.2⟩
                      rw [hmf.1]
                      exact hframe.1
                    · have hrun : version_handshake c =
                          (c1, .error (.notImplementedError
                            ("Handshake manifest " ++ optNatRepr c1.handshake_manifest
                              ++ " is not implemented"))) := by
                        unfold version_handshake
                        rw [hs, hd, hi]
                        simp [hv, hv2]
                      rw [hrun]
                      exact ⟨hframe.1, by simp⟩

/-! ## C6 — logging in `consume` -/

/-- Counterexample to C6 as stated: a `consume` on an empty buffer (the
direct-read-from-transport path) returns the next message but invokes the
logging callback zero times, so not every `consume` call logs the
returned message. -/
theorem claim6_counterexample :
    (consume (initChannel exProto (some ()) [] [⟨"RUN", []⟩]) none).2 =
      .ok ⟨"RUN", []⟩
    ∧ (consume (initChannel exProto (some ()) [] [⟨"RUN", []⟩]) none).1.logTrace
        = [] :=
  ⟨rfl, rfl⟩

/-- C6 (amended): `consume` logs the returned message via the logging
callback only on the buffered-message path — one invocation, carrying the
originating script line number exactly when the caller supplies one — and
the direct-read-from-transport path performs no logging; in either case
logging only appends to the log trace and has no effect on protocol
behavior (the returned message and every other state component are as
without it). -/
theorem claim6_consume_logging (c : Channel) (line_no : Option Nat)
    (hlog : c.log = some ()) :
    (∀ m, c.buffered_msg = some m →
      consume c line_no =
        ({ c with buffered_msg := none,
                  logTrace := c.logTrace ++ [⟨"(%4i) C: %s",
                    match line_no with
                    | some n => [.nat n, .msg m]
                    | none => [.msg m]⟩] }, .ok m))
    ∧ (c.buffered_msg = none →
        consume c line_no = consume_direct c
        ∧ (consume_direct c).1.logTrace = c.logTrace) := by
  constructor
  · intro m hm
    unfold consume logDirect recordLog
    rw [hm, hlog]
    cases line_no <;> rfl
  · intro hm
    unfold consume consume_direct
    rw [hm]
    cases c.pendingMsgs <;> simp

/-- Witness for C6 (amended) at a concrete channel with a buffered
message and a supplied line number, and at one with an empty buffer. -/
theorem claim6_consume_logging_witness :
    (consume
        { initChannel exProto (some ()) [] [] with
            buffered_msg := some ⟨"HELLO", []⟩ } (some 7) =
      ({ initChannel exProto (some ()) [] [] with
            buffered_msg := none,
            logTrace := [⟨"(%4i) C: %s", [.nat 7, .msg ⟨"HELLO", []⟩]⟩] },
        .ok ⟨"HELLO", []⟩))
    ∧ consume (initChannel exProto (some ()) [] [⟨"RUN", []⟩]) (some 7) =
        consume_direct (initChannel exProto (some ()) [] [⟨"RUN", []⟩]) := by
  constructor
  · have h := (claim6_consume_logging
      { initChannel exProto (some ()) [] [] with
          buffered_msg := some ⟨"HELLO", []⟩ } (some 7) rfl).1
      ⟨"HELLO", []⟩ rfl
    rw [h]
    rfl
  · exact ((claim6_consume_logging
      (initChannel exProto (some ()) [] [⟨"RUN", []⟩]) (some 7) rfl).2 rfl).1

/-! ## C7 — single-slot lookahead buffer -/

/-- C7: starting from an empty buffer, `peek()` returns the next decoded
message after exactly one message-level transport read; a further
`peek()` observes the same message with no state change (hence no further
read); `consume()` then returns the identical message without reading
again — one transport read in total — and leaves the buffer empty.  (The
buffer holds at most one message by construction: it is a single
`Option` slot.) -/
theorem claim7_peek_consume (c : Channel) (m : Msg) (rest : List Msg)
    (hbuf : c.buffered_msg = none) (hpend : c.pendingMsgs = m :: rest)
    (hlog : c.log = some ()) :
    ∃ c₁ c₂,
      peek c = (c₁, .ok m)
      ∧ c₁.reads = c.reads + 1
      ∧ c₁.buffered_msg = some m
      ∧ peek c₁ = (c₁, .ok m)
      ∧ consume c₁ none = (c₂, .ok m)
      ∧ c₂.reads = c.reads + 1
      ∧ c₂.buffered_msg = none := by
  refine ⟨{ c with
    pendingMsgs := rest
    reads := c.reads + 1
    buffered_msg := some m }, { c with
    pendingMsgs := rest
    reads := c.reads + 1
    buffered_msg := none
    logTrace := c.logTrace ++ [⟨"(%4i) C: %s", [.msg m]⟩] },
    ?_, rfl, rfl, ?_, ?_, rfl, rfl⟩
  · unfold peek consume_direct
    rw [hbuf, hpend]
  · unfold peek
    rfl
  · unfold consume logDirect recordLog
    rw [hlog]

/-- Witness for C7 on a concrete channel. -/
theorem claim7_peek_consume_witness :
    ∃ c₁ c₂,
      peek (initChannel exProto (some ()) [] [⟨"RUN", []⟩]) = (c₁, .ok ⟨"RUN", []⟩)
      ∧ c₁.reads = (initChannel exProto (some ()) [] [⟨"RUN", []⟩]).reads + 1
      ∧ c₁.buffered_msg = some ⟨"RUN", []⟩
      ∧ peek c₁ = (c₁, .ok ⟨"RUN", []⟩)
      ∧ consume c₁ none = (c₂, .ok ⟨"RUN", []⟩)
      ∧ c₂.reads = (initChannel exProto (some ()) [] [⟨"RUN", []⟩]).reads + 1
      ∧ c₂.buffered_msg = none :=
  claim7_peek_consume (initChannel exProto (some ()) [] [⟨"RUN", []⟩])
    ⟨"RUN", []⟩ [] rfl rfl rfl

/-! ## C10 — the log callback as a de-facto precondition -/

/-- Lemma: `peek` never touches the log callback slot. -/
theorem peek_fst_log (c : Channel) : ((peek c).1).log = c.log := by
  unfold peek consume_direct
  cases hb : c.buffered_msg with
  | some m => rfl
  | none =>
      cases hp : c.pendingMsgs with
      | nil => rfl
      | cons m rest => rfl

/-- Lemma: after a successful `peek`, the returned message sits in the
single-slot buffer. -/
theorem peek_buffered_of_ok (c c₁ : Channel) (m : Msg)
    (h : peek c = (c₁, .ok m)) : c₁.buffered_msg = some m := by
  unfold peek consume_direct at h
  cases hb : c.buffered_msg with
  | some mbuf =>
      rw [hb] at h
      injection h with h1 h2
      injection h2 with h3
      rw [← h1, hb, h3]
  | none =>
      rw [hb] at h
      cases hp : c.pendingMsgs with
      | nil =>
          rw [hp] at h
          exact absurd h (by simp)
      | cons mread rest =>
          rw [hp] at h
          injection h with h1 h2
          injection h2 with h3
          rw [← h1, h3]

/-- Counterexample to C10 as stated: with `log_cb` left `None`,
`try_auto_consume` whose next (buffered) message is *not* in the allowed
set succeeds — it returns `False` without ever invoking the callback —
so not every `try_auto_consume` call fails by invoking `None`. -/
theorem claim10_counterexample :
    try_auto_consume
      { initChannel exProto none [] [] with buffered_msg := some ⟨"HELLO", []⟩ }
      ["RESET"] =
      ({ initChannel exProto none [] [] with
          buffered_msg := some ⟨"HELLO", []⟩ }, .ok false) := rfl

/-- C10 (amended): with no log callback (`log_cb = None`), `send_raw`,
`send_server_line`, `auto_respond`, `consume` of a buffered message, and
`try_auto_consume` whose next message (buffered, or read from the
transport by its `peek`) is whitelisted all fail by invoking `None` as a
function; `try_auto_consume` whose next message is not whitelisted
succeeds and leaves it buffered; and `preamble`,
`version_handshake`, `peek`, and `consume` on an empty buffer never fail
that way and perform no logging at all. -/
theorem claim10_log_callback (c : Channel) (h : c.log = none) :
    (∀ b, send_raw c b = (c, .error .noneNotCallable))
    ∧ (∀ s, send_server_line c s = (c, .error .noneNotCallable))
    ∧ (∀ m, auto_respond c m = (c, .error .noneNotCallable))
    ∧ (∀ m ln, c.buffered_msg = some m →
        consume c ln = (c, .error .noneNotCallable))
    ∧ (∀ m wl c₁, peek c = (c₁, .ok m) → m.name ∈ wl →
        try_auto_consume c wl =
          ({ c₁ with buffered_msg := none }, .error .noneNotCallable))
    ∧ (∀ m wl c₁, peek c = (c₁, .ok m) → m.name ∉ wl →
        try_auto_consume c wl = (c₁, .ok false)
          ∧ c₁.buffered_msg = some m)
    ∧ ((preamble c).1.logTrace = c.logTrace
        ∧ (preamble c).2 ≠ .error .noneNotCallable)
    ∧ ((version_handshake c).1.logTrace = c.logTrace
        ∧ (version_handshake c).2 ≠ .error .noneNotCallable)
    ∧ ((peek c).1.logTrace = c.logTrace
        ∧ (peek c).2 ≠ .error .noneNotCallable)
    ∧ (∀ ln, c.buffered_msg = none →
        (consume c ln).1.logTrace = c.logTrace
        ∧ (consume c ln).2 ≠ .error .noneNotCallable) := by
  refine ⟨?_, ?_, ?_, ?_, ?_, ?_, ?_, ?_, ?_, ?_⟩
  · intro b
    unfold send_raw logDirect
    rw [h]
  · intro sl
    unfold send_server_line logDirect
    rw [h]
  · intro m
    unfold auto_respond logDirect
    rw [h]
  · intro m ln hm
    unfold consume logDirect
    rw [hm, h]
    cases ln <;> rfl
  · intro m wl c₁ hpeek hin
    have hln : c₁.log = none := by
      have hp := peek_fst_log c
      rw [hpeek] at hp
      exact hp.trans h
    unfold try_auto_consume logDirect
    rw [hpeek]
    simp [hin, hln]
  · intro m wl c₁ hpeek hnotin
    refine ⟨?_, peek_buffered_of_ok c c₁ m hpeek⟩
    unfold try_auto_consume
    rw [hpeek]
    simp [hnotin]
  · unfold preamble wireRead
    by_cases hr : 4 ≤ c.wireIn.length
    · simp [hr, log_guarded_of_none, h]
      split <;> simp
    · simp [hr]
  · exact noLog_version_handshake c h
  · unfold peek consume_direct
    cases hb : c.buffered_msg with
    | some m => simp
    | none => cases hp : c.pendingMsgs <;> simp
  · intro ln hb
    unfold consume consume_direct
    rw [hb]
    cases hp : c.pendingMsgs <;> simp

/-- Witness for C10 (amended) at concrete channels without a log
callback: `send_raw` fails with the `None`-call fault while the full
dynamic handshake and an empty-buffer `consume` never do. -/
theorem claim10_log_callback_witness :
    send_raw (initChannel exProto none [] []) [1, 2] =
      (initChannel exProto none [] [], .error .noneNotCallable)
    ∧ try_auto_consume (initChannel exProto none [] [⟨"RUN", []⟩]) ["RUN"] =
        ({ initChannel exProto none [] [⟨"RUN", []⟩] with
            pendingMsgs := [], reads := 1, buffered_msg := none },
          .error .noneNotCallable)
    ∧ (version_handshake (initChannel exProto none
        ([0, 2, 9, 5] ++ List.replicate 12 0) [])).2 ≠
        .error .noneNotCallable
    ∧ (consume (initChannel exProto none [] [⟨"RUN", []⟩]) none).2 ≠
        .error .noneNotCallable := by
  refine ⟨(claim10_log_callback _ rfl).1 [1, 2], ?_, ?_, ?_⟩
  · exact (claim10_log_callback
      (initChannel exProto none [] [⟨"RUN", []⟩]) rfl).2.2.2.2.1
      ⟨"RUN", []⟩ ["RUN"]
      { initChannel exProto none [] [⟨"RUN", []⟩] with
          pendingMsgs := [], reads := 1, buffered_msg := some ⟨"RUN", []⟩ }
      (by rfl) (by simp)
  · exact (claim10_log_callback
      (initChannel exProto none ([0, 2, 9, 5] ++ List.replicate 12 0) [])
      rfl).2.2.2.2.2.2.2.1.2
  · exact ((claim10_log_callback
      (initChannel exProto none [] [⟨"RUN", []⟩])
      rfl).2.2.2.2.2.2.2.2.2 none rfl).2

end Boltstub
